import Mathlib

/-!
Shallow embedding of `hyperseti/utils.py`: the memory-space dispatcher
`on_gpu` and the metadata adapter `datwrapper`, together with the Python
value model they operate on (numpy/cupy arrays, scalars, strings,
sequences, dicts and DataArray objects).
-/

namespace Hyperseti

/-- A numpy/cupy array value.  A 0-dimensional array holds a single scalar
and has no `len()`; a 1-dimensional array holds a list of elements and
`len()` is the number of elements.  Element values are modelled as exact
rationals. -/
inductive NDArr where
  | zeroDim (x : ℚ)
  | oneDim (xs : List ℚ)
deriving Repr, DecidableEq

/-- The time axis descriptor of a DataArray, exposing the three fields
`datwrapper` reads: `units`, `val_step` and `time_start`. -/
structure TimeAxis where
  units : ℚ
  val_step : ℚ
  time_start : ℚ
deriving Repr, DecidableEq

/-- The frequency axis descriptor of a DataArray, exposing the three fields
`datwrapper` reads: `units`, `val_step` and `val_start`. -/
structure FreqAxis where
  units : ℚ
  val_step : ℚ
  val_start : ℚ
deriving Repr, DecidableEq

/-- A Python value as seen by the two wrappers: a numeric scalar, a string,
a host-resident (numpy) array, a device-resident (cupy) array, an ordered
sequence (list/tuple), an insertion-ordered dict, or a DataArray carrying
free-form attributes, the two axis descriptors and an underlying data
buffer. -/
inductive Val where
  | num (q : ℚ)
  | str (s : String)
  | hostArr (a : NDArr)
  | devArr (a : NDArr)
  | seq (items : List Val)
  | dict (entries : List (String × Val))
  | dataArr (attrs : List (String × Val)) (time : TimeAxis) (frequency : FreqAxis) (data : Val)

/-- The exceptions the wrapped calls can raise in the claims under study:
`typeError` (e.g. `len()` of an unsized value), `assertionError` (the
failed `assert return_space in ('cpu','gpu')`) and `indexError`
(`args[0]` on an empty argument tuple). -/
inductive PyErr where
  | typeError
  | assertionError
  | indexError
deriving Repr, DecidableEq

/-- A kernel: a callable taking positional arguments and keyword arguments
and either returning a value or raising. -/
def Kernel : Type := List Val → List (String × Val) → Except PyErr Val

/-- `True` iff the value is a numpy (host-resident) array:
`isinstance(v, np.ndarray)`. -/
def isHostArr : Val → Bool
  | Val.hostArr _ => true
  | _ => false

/-- `True` iff the value is a cupy (device-resident) array:
`isinstance(v, cp.ndarray)`. -/
def isDevArr : Val → Bool
  | Val.devArr _ => true
  | _ => false

/-- `isinstance(v, (np.ndarray, cp.ndarray))`. -/
def isBuf (v : Val) : Bool := isHostArr v || isDevArr v

/-- Python `len(v)`: `none` models a `TypeError` (`len()` of a scalar, a
0-dimensional array, or a DataArray, whose class is outside the shown
sources and is not assumed to define `__len__`). -/
def pyLen : Val → Option Nat
  | Val.num _ => none
  | Val.str s => some s.length
  | Val.hostArr (NDArr.zeroDim _) => none
  | Val.hostArr (NDArr.oneDim xs) => some xs.length
  | Val.devArr (NDArr.zeroDim _) => none
  | Val.devArr (NDArr.oneDim xs) => some xs.length
  | Val.seq items => some items.length
  | Val.dict entries => some entries.length
  | Val.dataArr _ _ _ _ => none

/-- Python iteration `for item in v`: strings yield one-character strings,
sequences yield their elements, dicts yield their keys, 1-dimensional
arrays yield numpy/cupy scalar elements (which are not `ndarray`
instances); everything else is not iterable. -/
def pyIter : Val → Option (List Val)
  | Val.str s => some (s.data.map fun c => Val.str (String.mk [c]))
  | Val.seq items => some items
  | Val.dict entries => some (entries.map fun p => Val.str p.1)
  | Val.hostArr (NDArr.oneDim xs) => some (xs.map Val.num)
  | Val.devArr (NDArr.oneDim xs) => some (xs.map Val.num)
  | _ => none

/-- The per-argument conversion of `on_gpu`'s input loop: a numpy array is
replaced by `cp.asarray(arg)` (same element values, device-resident);
every other value passes through unchanged. -/
def convertArg : Val → Val
  | Val.hostArr a => Val.devArr a
  | arg => arg

/-- `on_gpu`'s input loop: `new_args`. -/
def convertInputs (args : List Val) : List Val := args.map convertArg

/-- `kwargs.pop('return_space')` when present: returns the popped value (if
any) and the remaining keyword arguments.  Keyword dicts have unique keys,
so removing the first occurrence is faithful. -/
def popReturnSpace : List (String × Val) → Option Val × List (String × Val)
  | [] => (none, [])
  | (k, v) :: rest =>
    if k == "return_space" then (some v, rest)
    else
      let p := popReturnSpace rest
      (p.1, (k, v) :: p.2)

/-- The element conversion inside the `return_space='gpu'` sequence loop:
numpy array elements become cupy arrays, everything else is unchanged. -/
def toGpuItem : Val → Val
  | Val.hostArr a => Val.devArr a
  | item => item

/-- The element conversion inside the `return_space='cpu'` sequence loop:
cupy array elements become numpy arrays, everything else is unchanged. -/
def toCpuItem : Val → Val
  | Val.devArr a => Val.hostArr a
  | item => item

/-- Result normalization for `return_space='gpu'`:
`if len(output) == 1 or isinstance(output, (np.ndarray, cp.ndarray))` —
`len` is evaluated first and raises `TypeError` on unsized values; in the
single branch a numpy output is converted to cupy and anything else is
returned as-is; otherwise the output is iterated and each numpy element is
converted, producing a list. -/
def to_gpu_output (output : Val) : Except PyErr Val :=
  match pyLen output with
  | none => .error .typeError
  | some n =>
    if n == 1 || isBuf output then
      match output with
      | Val.hostArr a => .ok (Val.devArr a)
      | _ => .ok output
    else
      match pyIter output with
      | some items => .ok (Val.seq (items.map toGpuItem))
      | none => .error .typeError

/-- Result normalization for `return_space='cpu'`, symmetric to
`to_gpu_output`: a cupy output is converted via `cp.asnumpy`. -/
def to_cpu_output (output : Val) : Except PyErr Val :=
  match pyLen output with
  | none => .error .typeError
  | some n =>
    if n == 1 || isBuf output then
      match output with
      | Val.devArr a => .ok (Val.hostArr a)
      | _ => .ok output
    else
      match pyIter output with
      | some items => .ok (Val.seq (items.map toCpuItem))
      | none => .error .typeError

/-- Python `v == s` for a string literal `s`: true only when `v` is the
string `s` (as in `return_space == 'gpu'` and the tuple-membership test of
the assertion). -/
def isStr (v : Val) (s : String) : Bool :=
  match v with
  | Val.str t => t == s
  | _ => false

/-- The `on_gpu` decorator of `hyperseti/utils.py`: converts numpy
positional arguments to cupy, pops the reserved `return_space` keyword and
asserts it is `'cpu'` or `'gpu'` (the failed assertion raising before the
kernel is invoked), calls the kernel, and normalizes the result according
to `return_space`. -/
def on_gpu (func : Kernel) : Kernel := fun args kwargs =>
  let new_args := convertInputs args
  let p := popReturnSpace kwargs
  match p.1 with
  | none => func new_args p.2
  | some rs =>
    if isStr rs "cpu" || isStr rs "gpu" then
      if isStr rs "gpu" then (func new_args p.2).bind to_gpu_output
      else (func new_args p.2).bind to_cpu_output
    else .error .assertionError

/-- Python dict assignment `d[k] = v` on an insertion-ordered dict: if the
key is present its value is replaced in place, otherwise the entry is
appended. -/
def dictSet (d : List (String × Val)) (k : String) (v : Val) : List (String × Val) :=
  if d.any (fun p => p.1 == k) then
    d.map (fun p => if p.1 == k then (k, v) else p)
  else d ++ [(k, v)]

/-- The attrs-copy loop of `datwrapper`:
`for k, v in d.attrs.items(): metadata[k] = v` starting from `{}`. -/
def dictCopy (attrs : List (String × Val)) : List (String × Val) :=
  attrs.foldl (fun m kv => dictSet m kv.1 kv.2) []

/-- The metadata dict built by `datwrapper` from a DataArray's attributes
and axis descriptors: the attrs copy followed by the four assignments of
the derived keys `dt`, `t0`, `df`, `f0`. -/
def buildMetadata (attrs : List (String × Val)) (time : TimeAxis)
    (frequency : FreqAxis) : List (String × Val) :=
  dictSet
    (dictSet
      (dictSet
        (dictSet (dictCopy attrs) "dt" (Val.num (time.units * time.val_step)))
        "t0" (Val.num time.time_start))
      "df" (Val.num (frequency.units * frequency.val_step)))
    "f0" (Val.num (frequency.units * frequency.val_start))

/-- The `datwrapper` decorator of `hyperseti/utils.py`: `args[0]` raises
`IndexError` on an empty argument tuple; a DataArray first argument is
replaced by its `data` buffer and the derived metadata dict is injected as
the `metadata` keyword; otherwise the call is forwarded unmodified. -/
def datwrapper (func : Kernel) : Kernel := fun args kwargs =>
  match args with
  | [] => .error .indexError
  | arg0 :: rest =>
    match arg0 with
    | Val.dataArr attrs time frequency data =>
        func (data :: rest)
          (dictSet kwargs "metadata" (Val.dict (buildMetadata attrs time frequency)))
    | _ => func args kwargs

/-- A kernel that echoes its keyword arguments, used to observe what a
wrapper passes to the wrapped callable. -/
def echoKwargs : Kernel := fun _ kwargs => .ok (Val.dict kwargs)

/-- A kernel that echoes its positional arguments as a sequence. -/
def echoArgs : Kernel := fun args _ => .ok (Val.seq args)

/-- `True` iff the value is a DataArray: `isinstance(v, DataArray)`. -/
def isDataArr : Val → Bool
  | Val.dataArr _ _ _ _ => true
  | _ => false

/-- `key in kwargs` on a keyword dict. -/
def hasKw (kwargs : List (String × Val)) (key : String) : Bool :=
  kwargs.any (fun p => p.1 == key)

/-- A kernel that raises whenever a `metadata` keyword is supplied, and
otherwise returns 0. -/
def failOnMetadata : Kernel := fun _ kwargs =>
  if hasKw kwargs "metadata" then .error .typeError else .ok (Val.num 0)

/-- Kernel returning a length-1 list whose single element is a
host-resident buffer. -/
def len1SeqKernel : Kernel := fun _ _ => .ok (Val.seq [Val.hostArr (NDArr.oneDim [5])])

lemma popReturnSpace_not_mem (kwargs : List (String × Val))
    (h : hasKw kwargs "return_space" = false) :
    popReturnSpace kwargs = (none, kwargs) := by
  induction kwargs with
  | nil => rfl
  | cons kv rest ih =>
    obtain ⟨k, v⟩ := kv
    simp only [hasKw, List.any_cons, Bool.or_eq_false_iff] at h
    simp [popReturnSpace, h.1, ih h.2]

lemma popReturnSpace_cons (v : Val) (kw : List (String × Val)) :
    popReturnSpace (("return_space", v) :: kw) = (some v, kw) := by
  simp [popReturnSpace]

lemma popReturnSpace_snd (kwargs : List (String × Val)) :
    (popReturnSpace kwargs).2 = kwargs.eraseP (fun p => p.1 == "return_space") := by
  induction kwargs with
  | nil => rfl
  | cons kv rest ih =>
    obtain ⟨k, v⟩ := kv
    by_cases hk : (k == "return_space") = true
    · simp [popReturnSpace, hk, List.eraseP_cons]
    · simp only [Bool.not_eq_true] at hk
      simp [popReturnSpace, hk, List.eraseP_cons, ih]

lemma isStr_eq {v : Val} {s : String} (h : isStr v s = true) : v = Val.str s := by
  cases v <;> simp_all [isStr]

lemma dictSet_not_mem (d : List (String × Val)) (k : String) (v : Val)
    (h : d.any (fun p => p.1 == k) = false) : dictSet d k v = d ++ [(k, v)] := by
  simp [dictSet, h]

lemma dictCopy_go (attrs : List (String × Val)) :
    ∀ acc : List (String × Val),
      (∀ p ∈ attrs, acc.any (fun q => q.1 == p.1) = false) →
      (attrs.map Prod.fst).Nodup →
      attrs.foldl (fun m kv => dictSet m kv.1 kv.2) acc = acc ++ attrs := by
  induction attrs with
  | nil => intro acc _ _; simp
  | cons kv rest ih =>
    intro acc hd hnodup
    obtain ⟨k, v⟩ := kv
    simp only [List.map_cons, List.nodup_cons] at hnodup
    have hset : dictSet acc k v = acc ++ [(k, v)] :=
      dictSet_not_mem acc k v (hd (k, v) (List.mem_cons_self _ _))
    simp only [List.foldl_cons, hset]
    rw [ih (acc ++ [(k, v)]) ?hacc hnodup.2]
    · simp
    · intro p hp
      have h1 : acc.any (fun q => q.1 == p.1) = false := hd p (List.mem_cons_of_mem _ hp)
      have h2 : (k == p.1) = false := by
        simp only [beq_eq_false_iff_ne, ne_eq]
        intro hkp
        exact hnodup.1 (hkp ▸ List.mem_map_of_mem Prod.fst hp)
      simp [List.any_append, h1, h2]

lemma dictCopy_nodup (attrs : List (String × Val))
    (h : (attrs.map Prod.fst).Nodup) : dictCopy attrs = attrs := by
  have := dictCopy_go attrs [] (by intro p _; rfl) h
  simpa [dictCopy] using this

/-- C3: when `return_space` is supplied with a value other than `'cpu'` or
`'gpu'`, the dispatcher-wrapped call fails with the assertion error, for
every kernel — the result does not depend on the kernel, so the kernel
never runs and no result is produced. -/
theorem on_gpu_invalid_return_space (func : Kernel) (args : List Val)
    (kwargs kw' : List (String × Val)) (v : Val)
    (hpop : popReturnSpace kwargs = (some v, kw'))
    (hcpu : isStr v "cpu" = false) (hgpu : isStr v "gpu" = false) :
    on_gpu func args kwargs = .error .assertionError := by
  simp [on_gpu, hpop, hcpu, hgpu]

/-- Witness for C3 at `return_space='tpu'`, with a kernel that would raise
if it ran: the call still fails with the assertion error. -/
theorem on_gpu_invalid_return_space_witness :
    on_gpu (fun _ _ => .error .typeError) [Val.num 1]
      [("return_space", Val.str "tpu")] = .error .assertionError :=
  on_gpu_invalid_return_space (fun _ _ => .error .typeError) [Val.num 1]
    [("return_space", Val.str "tpu")] [] (Val.str "tpu") rfl (by decide)
    (by decide)

/-- C4: each positional host-buffer argument is converted to a device
buffer (`convertArg` sends numpy arrays to cupy arrays with the same
elements and leaves everything else untouched), and in every call — with
`return_space` absent or present with either valid value — the kernel is
invoked with exactly the converted positionals and the keyword arguments
with only the `return_space` entry removed (all other entries preserved in
value and order). -/
theorem on_gpu_argument_conversion (func : Kernel) (args : List Val)
    (kwargs : List (String × Val)) :
    (∀ a, convertArg (Val.hostArr a) = Val.devArr a) ∧
    (∀ v, isHostArr v = false → convertArg v = v) ∧
    (hasKw kwargs "return_space" = false →
      on_gpu func args kwargs = func (args.map convertArg) kwargs) ∧
    (∀ rs kw', popReturnSpace kwargs = (some rs, kw') →
      (isStr rs "gpu" = true →
        on_gpu func args kwargs = (func (args.map convertArg) kw').bind to_gpu_output) ∧
      (isStr rs "cpu" = true →
        on_gpu func args kwargs = (func (args.map convertArg) kw').bind to_cpu_output)) ∧
    (popReturnSpace kwargs).2 = kwargs.eraseP (fun p => p.1 == "return_space") := by
  refine ⟨fun a => rfl, fun v hv => ?_, fun habs => ?_,
    fun rs kw' hpop => ⟨fun hgpu => ?_, fun hcpu => ?_⟩, popReturnSpace_snd kwargs⟩
  · cases v <;> simp_all [convertArg, isHostArr]
  · simp [on_gpu, popReturnSpace_not_mem kwargs habs, convertInputs]
  · obtain rfl := isStr_eq hgpu
    simp [on_gpu, hpop, isStr, convertInputs]
  · obtain rfl := isStr_eq hcpu
    simp [on_gpu, hpop, isStr, convertInputs]

/-- Witness for C4: with no `return_space`, the kernel sees the converted
buffer, the untouched scalar, and the untouched keyword; with
`return_space='cpu'` present, the kernel sees the converted positional and
only the remaining keyword. -/
theorem on_gpu_argument_conversion_witness :
    on_gpu echoArgs [Val.hostArr (NDArr.oneDim [1, 2]), Val.num 3]
        [("x", Val.num 9)] =
      echoArgs ([Val.hostArr (NDArr.oneDim [1, 2]), Val.num 3].map convertArg)
        [("x", Val.num 9)] ∧
    on_gpu echoArgs [Val.hostArr (NDArr.oneDim [1, 2]), Val.num 3]
        [("x", Val.num 9)] =
      .ok (Val.seq [Val.devArr (NDArr.oneDim [1, 2]), Val.num 3]) ∧
    on_gpu echoKwargs [Val.hostArr (NDArr.oneDim [4])]
        [("return_space", Val.str "cpu"), ("y", Val.num 2)] =
      .ok (Val.dict [("y", Val.num 2)]) :=
  ⟨(on_gpu_argument_conversion echoArgs
      [Val.hostArr (NDArr.oneDim [1, 2]), Val.num 3] [("x", Val.num 9)]).2.2.1
      (by decide),
   rfl,
   (((on_gpu_argument_conversion echoKwargs [Val.hostArr (NDArr.oneDim [4])]
      [("return_space", Val.str "cpu"), ("y", Val.num 2)]).2.2.2.1
      (Val.str "cpu") [("y", Val.num 2)] rfl).2 (by decide)).trans rfl⟩

/-- C8: with the `return_space` keyword absent, the wrapped call returns
the kernel's outcome verbatim — whatever value or error the kernel
produces on the converted arguments is the result, with no inspection or
conversion. -/
theorem on_gpu_no_return_space_verbatim (func : Kernel) (args : List Val)
    (kwargs : List (String × Val)) (out : Except PyErr Val)
    (habs : hasKw kwargs "return_space" = false)
    (hrun : func (convertInputs args) kwargs = out) :
    on_gpu func args kwargs = out := by
  simp [on_gpu, popReturnSpace_not_mem kwargs habs, hrun]

/-- Witness for C8: a kernel returning a host buffer with no
`return_space` — the host buffer comes back unconverted. -/
theorem on_gpu_no_return_space_verbatim_witness :
    on_gpu (fun _ _ => .ok (Val.hostArr (NDArr.oneDim [7]))) [] [] =
      .ok (Val.hostArr (NDArr.oneDim [7])) :=
  on_gpu_no_return_space_verbatim (fun _ _ => .ok (Val.hostArr (NDArr.oneDim [7])))
    [] [] (.ok (Val.hostArr (NDArr.oneDim [7]))) (by decide) rfl

/-- C7: when the first positional argument is not a DataArray, the
metadata-adapter-wrapped call forwards the original positional and keyword
arguments unmodified and injects no `metadata` keyword. -/
theorem datwrapper_non_dataarray_passthrough (func : Kernel) (arg0 : Val)
    (rest : List Val) (kwargs : List (String × Val))
    (h : isDataArr arg0 = false) :
    datwrapper func (arg0 :: rest) kwargs = func (arg0 :: rest) kwargs := by
  cases arg0 <;> simp_all [datwrapper, isDataArr]

/-- Witness for C7: a kernel that raises whenever `metadata` is supplied
does not raise when wrapped and called with a scalar first argument. -/
theorem datwrapper_non_dataarray_passthrough_witness :
    datwrapper failOnMetadata [Val.num 1] [("x", Val.num 2)] =
      failOnMetadata [Val.num 1] [("x", Val.num 2)] ∧
    datwrapper failOnMetadata [Val.num 1] [("x", Val.num 2)] = .ok (Val.num 0) :=
  ⟨datwrapper_non_dataarray_passthrough failOnMetadata (Val.num 1) []
      [("x", Val.num 2)] (by decide), rfl⟩

/-- C10: with zero positional arguments the metadata-adapter-wrapped call
fails with `IndexError` from the unguarded `args[0]`, for every kernel and
any keyword arguments — the kernel is never invoked. -/
theorem datwrapper_empty_args_index_error (func : Kernel)
    (kwargs : List (String × Val)) :
    datwrapper func [] kwargs = .error .indexError := rfl

lemma isStr_gpu_cpu : isStr (Val.str "gpu") "cpu" = false := rfl

lemma isStr_gpu_gpu : isStr (Val.str "gpu") "gpu" = true := rfl

lemma isStr_cpu_cpu : isStr (Val.str "cpu") "cpu" = true := rfl

lemma isStr_cpu_gpu : isStr (Val.str "cpu") "gpu" = false := rfl

/-- C5: a kernel result that is a sequence of length 1 takes the
single-result branch under either `return_space`: it is returned whole and
never iterated (so its single element is not inspected), and a bare host
buffer of length 1 is itself converted under `return_space='gpu'`. -/
theorem on_gpu_length_one_single_rule (func : Kernel) (args : List Val)
    (kw : List (String × Val)) :
    (∀ items : List Val, items.length = 1 →
      func (convertInputs args) kw = .ok (Val.seq items) →
      on_gpu func args (("return_space", Val.str "gpu") :: kw) = .ok (Val.seq items) ∧
      on_gpu func args (("return_space", Val.str "cpu") :: kw) = .ok (Val.seq items)) ∧
    (∀ x : ℚ, func (convertInputs args) kw = .ok (Val.hostArr (NDArr.oneDim [x])) →
      on_gpu func args (("return_space", Val.str "gpu") :: kw) =
        .ok (Val.devArr (NDArr.oneDim [x]))) := by
  constructor
  · intro items hlen hrun
    constructor <;>
      simp [on_gpu, popReturnSpace_cons, isStr_gpu_cpu, isStr_gpu_gpu,
        isStr_cpu_cpu, isStr_cpu_gpu, hrun, Except.bind, to_gpu_output,
        to_cpu_output, pyLen, hlen]
  · intro x hrun
    simp [on_gpu, popReturnSpace_cons, isStr_gpu_cpu, isStr_gpu_gpu, hrun,
      Except.bind, to_gpu_output, pyLen]

/-- Witness for C5: a length-1 list holding a host buffer is returned
as-is under `return_space='gpu'`, and a bare length-1 host buffer is
converted to a device buffer. -/
theorem on_gpu_length_one_single_rule_witness :
    on_gpu len1SeqKernel [] [("return_space", Val.str "gpu")] =
      .ok (Val.seq [Val.hostArr (NDArr.oneDim [5])]) ∧
    on_gpu (fun _ _ => .ok (Val.hostArr (NDArr.oneDim [9]))) []
      [("return_space", Val.str "gpu")] = .ok (Val.devArr (NDArr.oneDim [9])) :=
  ⟨((on_gpu_length_one_single_rule len1SeqKernel [] []).1
      [Val.hostArr (NDArr.oneDim [5])] (by decide) rfl).1,
   (on_gpu_length_one_single_rule (fun _ _ => .ok (Val.hostArr (NDArr.oneDim [9])))
      [] []).2 9 rfl⟩

/-- C6: a kernel result that is a sequence of length other than 1 is
rebuilt element by element under either `return_space`: buffer elements in
the wrong space are converted in place, non-buffer elements pass through
unchanged, and the sequence keeps its length and order. -/
theorem on_gpu_multi_element_sequence (func : Kernel) (args : List Val)
    (kw : List (String × Val)) (items : List Val)
    (hrun : func (convertInputs args) kw = .ok (Val.seq items))
    (hlen : items.length ≠ 1) :
    on_gpu func args (("return_space", Val.str "gpu") :: kw) =
      .ok (Val.seq (items.map toGpuItem)) ∧
    on_gpu func args (("return_space", Val.str "cpu") :: kw) =
      .ok (Val.seq (items.map toCpuItem)) ∧
    (items.map toGpuItem).length = items.length ∧
    (items.map toCpuItem).length = items.length ∧
    (∀ v, isBuf v = false → toGpuItem v = v ∧ toCpuItem v = v) := by
  have hlen' : (items.length == 1) = false := by
    simpa using hlen
  refine ⟨?_, ?_, by simp, by simp, ?_⟩
  · simp [on_gpu, popReturnSpace_cons, isStr_gpu_cpu, isStr_gpu_gpu, hrun,
      Except.bind, to_gpu_output, pyLen, hlen', isBuf, isHostArr, isDevArr, pyIter]
  · simp [on_gpu, popReturnSpace_cons, isStr_cpu_cpu, isStr_cpu_gpu, hrun,
      Except.bind, to_cpu_output, pyLen, hlen', isBuf, isHostArr, isDevArr, pyIter]
  · intro v hv
    cases v <;> simp_all [toGpuItem, toCpuItem, isBuf, isHostArr, isDevArr]

/-- Witness for C6: a 2-tuple of a host buffer and a scalar under
`return_space='gpu'` becomes the device buffer and the untouched scalar,
in that order. -/
theorem on_gpu_multi_element_sequence_witness :
    on_gpu (fun _ _ => .ok (Val.seq [Val.hostArr (NDArr.oneDim [3]), Val.num 4]))
      [] [("return_space", Val.str "gpu")] =
      .ok (Val.seq [Val.devArr (NDArr.oneDim [3]), Val.num 4]) :=
  ((on_gpu_multi_element_sequence
      (fun _ _ => .ok (Val.seq [Val.hostArr (NDArr.oneDim [3]), Val.num 4]))
      [] [] [Val.hostArr (NDArr.oneDim [3]), Val.num 4] rfl
      (by decide)).1).trans rfl

/-- C9: with `return_space` set to `'cpu'` or `'gpu'`, a kernel output on
which `len()` is undefined (a scalar, a 0-dimensional array, …) makes the
wrapped call fail with `TypeError` during result normalization, because
`len(output)` is evaluated before the buffer `isinstance` test in the
short-circuit condition; such outputs are never returned. -/
theorem on_gpu_unsized_output_type_error (func : Kernel) (args : List Val)
    (kwargs kw' : List (String × Val)) (rs o : Val)
    (hpop : popReturnSpace kwargs = (some rs, kw'))
    (hrs : rs = Val.str "cpu" ∨ rs = Val.str "gpu")
    (hrun : func (convertInputs args) kw' = .ok o)
    (hlen : pyLen o = none) :
    on_gpu func args kwargs = .error .typeError := by
  rcases hrs with h | h <;> subst h
  · simp [on_gpu, hpop, isStr_cpu_cpu, isStr_cpu_gpu, hrun, Except.bind,
      to_cpu_output, hlen]
  · simp [on_gpu, hpop, isStr_gpu_cpu, isStr_gpu_gpu, hrun, Except.bind,
      to_gpu_output, hlen]

/-- Witness for C9: a kernel returning a bare scalar with
`return_space='gpu'` raises `TypeError`; likewise a 0-dimensional host
array with `return_space='cpu'`. -/
theorem on_gpu_unsized_output_type_error_witness :
    on_gpu (fun _ _ => .ok (Val.num 5)) [] [("return_space", Val.str "gpu")] =
      .error .typeError ∧
    on_gpu (fun _ _ => .ok (Val.hostArr (NDArr.zeroDim 2))) []
      [("return_space", Val.str "cpu")] = .error .typeError :=
  ⟨on_gpu_unsized_output_type_error (fun _ _ => .ok (Val.num 5)) []
      [("return_space", Val.str "gpu")] [] (Val.str "gpu") (Val.num 5) rfl
      (Or.inr rfl) rfl rfl,
   on_gpu_unsized_output_type_error (fun _ _ => .ok (Val.hostArr (NDArr.zeroDim 2)))
      [] [("return_space", Val.str "cpu")] [] (Val.str "cpu")
      (Val.hostArr (NDArr.zeroDim 2)) rfl (Or.inl rfl) rfl rfl⟩

/-- Counterexample to C1: under `return_space='gpu'` a kernel returning a
length-1 list whose single element is a host-resident buffer yields a
result that still contains a host-resident buffer — the length-1 branch
returns the sequence without converting its element. -/
theorem on_gpu_gpu_len1_seq_host_counterexample :
    on_gpu len1SeqKernel [] [("return_space", Val.str "gpu")] =
      .ok (Val.seq [Val.hostArr (NDArr.oneDim [5])]) ∧
    isHostArr (Val.hostArr (NDArr.oneDim [5])) = true :=
  ⟨rfl, rfl⟩

/-- C1 (amended): under `return_space='gpu'` a bare host-buffer output is
converted to a device buffer and every buffer element of a sequence output
of length other than 1 is device-resident (non-buffer elements unchanged);
but a length-1 sequence output is returned as-is, so a host buffer inside
it stays host-resident.  Symmetrically for `return_space='cpu'`. -/
theorem on_gpu_return_space_placement (func : Kernel) (args : List Val)
    (kw : List (String × Val)) :
    (∀ xs, func (convertInputs args) kw = .ok (Val.hostArr (NDArr.oneDim xs)) →
      on_gpu func args (("return_space", Val.str "gpu") :: kw) =
        .ok (Val.devArr (NDArr.oneDim xs))) ∧
    (∀ items, func (convertInputs args) kw = .ok (Val.seq items) →
      items.length ≠ 1 →
      on_gpu func args (("return_space", Val.str "gpu") :: kw) =
        .ok (Val.seq (items.map toGpuItem)) ∧
      ∀ v ∈ items.map toGpuItem, isHostArr v = false) ∧
    (∀ items, func (convertInputs args) kw = .ok (Val.seq items) →
      items.length = 1 →
      on_gpu func args (("return_space", Val.str "gpu") :: kw) =
        .ok (Val.seq items)) ∧
    (∀ xs, func (convertInputs args) kw = .ok (Val.devArr (NDArr.oneDim xs)) →
      on_gpu func args (("return_space", Val.str "cpu") :: kw) =
        .ok (Val.hostArr (NDArr.oneDim xs))) ∧
    (∀ items, func (convertInputs args) kw = .ok (Val.seq items) →
      items.length ≠ 1 →
      on_gpu func args (("return_space", Val.str "cpu") :: kw) =
        .ok (Val.seq (items.map toCpuItem)) ∧
      ∀ v ∈ items.map toCpuItem, isDevArr v = false) ∧
    (∀ items, func (convertInputs args) kw = .ok (Val.seq items) →
      items.length = 1 →
      on_gpu func args (("return_space", Val.str "cpu") :: kw) =
        .ok (Val.seq items)) := by
  refine ⟨fun xs hrun => ?_, fun items hrun hlen => ⟨?_, ?_⟩,
    fun items hrun hlen => ?_, fun xs hrun => ?_,
    fun items hrun hlen => ⟨?_, ?_⟩, fun items hrun hlen => ?_⟩
  · simp [on_gpu, popReturnSpace_cons, isStr_gpu_cpu, isStr_gpu_gpu, hrun,
      Except.bind, to_gpu_output, pyLen, isBuf, isHostArr, isDevArr]
  · have hlen' : (items.length == 1) = false := by simpa using hlen
    simp [on_gpu, popReturnSpace_cons, isStr_gpu_cpu, isStr_gpu_gpu, hrun,
      Except.bind, to_gpu_output, pyLen, hlen', isBuf, isHostArr, isDevArr, pyIter]
  · intro v hv
    rw [List.mem_map] at hv
    obtain ⟨u, _, hu⟩ := hv
    subst hu
    cases u <;> rfl
  · have hlen' : (items.length == 1) = true := by simpa using hlen
    simp [on_gpu, popReturnSpace_cons, isStr_gpu_cpu, isStr_gpu_gpu, hrun,
      Except.bind, to_gpu_output, pyLen, hlen']
  · simp [on_gpu, popReturnSpace_cons, isStr_cpu_cpu, isStr_cpu_gpu, hrun,
      Except.bind, to_cpu_output, pyLen, isBuf, isHostArr, isDevArr]
  · have hlen' : (items.length == 1) = false := by simpa using hlen
    simp [on_gpu, popReturnSpace_cons, isStr_cpu_cpu, isStr_cpu_gpu, hrun,
      Except.bind, to_cpu_output, pyLen, hlen', isBuf, isHostArr, isDevArr, pyIter]
  · intro v hv
    rw [List.mem_map] at hv
    obtain ⟨u, _, hu⟩ := hv
    subst hu
    cases u <;> rfl
  · have hlen' : (items.length == 1) = true := by simpa using hlen
    simp [on_gpu, popReturnSpace_cons, isStr_cpu_cpu, isStr_cpu_gpu, hrun,
      Except.bind, to_cpu_output, pyLen, hlen']

/-- Witness for C1 (amended): a bare host buffer is converted under
`return_space='gpu'`, and in a 2-element sequence the host-buffer element
is converted while the scalar passes through. -/
theorem on_gpu_return_space_placement_witness :
    on_gpu (fun _ _ => .ok (Val.hostArr (NDArr.oneDim [1, 2]))) []
      [("return_space", Val.str "gpu")] =
      .ok (Val.devArr (NDArr.oneDim [1, 2])) ∧
    on_gpu (fun _ _ => .ok (Val.seq [Val.hostArr (NDArr.oneDim [8]), Val.num 6]))
      [] [("return_space", Val.str "gpu")] =
      .ok (Val.seq [Val.devArr (NDArr.oneDim [8]), Val.num 6]) :=
  ⟨(on_gpu_return_space_placement
      (fun _ _ => .ok (Val.hostArr (NDArr.oneDim [1, 2]))) [] []).1 [1, 2] rfl,
   (((on_gpu_return_space_placement
      (fun _ _ => .ok (Val.seq [Val.hostArr (NDArr.oneDim [8]), Val.num 6]))
      [] []).2.1 [Val.hostArr (NDArr.oneDim [8]), Val.num 6] rfl
      (by decide)).1).trans rfl⟩

lemma buildMetadata_no_collision (attrs : List (String × Val)) (t : TimeAxis)
    (f : FreqAxis) (hnodup : (attrs.map Prod.fst).Nodup)
    (hres : attrs.all
      (fun p => !(p.1 == "dt" || p.1 == "t0" || p.1 == "df" || p.1 == "f0")) = true) :
    buildMetadata attrs t f = attrs ++
      [("dt", Val.num (t.units * t.val_step)),
       ("t0", Val.num t.time_start),
       ("df", Val.num (f.units * f.val_step)),
       ("f0", Val.num (f.units * f.val_start))] := by
  have hres' : ∀ p ∈ attrs, (p.1 == "dt") = false ∧ (p.1 == "t0") = false ∧
      (p.1 == "df") = false ∧ (p.1 == "f0") = false := by
    intro p hp
    have h := List.all_eq_true.mp hres p hp
    simp only [Bool.not_eq_true', Bool.or_eq_false_iff] at h
    exact ⟨h.1.1.1, h.1.1.2, h.1.2, h.2⟩
  have hdt : attrs.any (fun p => p.1 == "dt") = false :=
    List.any_eq_false.mpr fun p hp => by simp [(hres' p hp).1]
  have ht0 : attrs.any (fun p => p.1 == "t0") = false :=
    List.any_eq_false.mpr fun p hp => by simp [(hres' p hp).2.1]
  have hdf : attrs.any (fun p => p.1 == "df") = false :=
    List.any_eq_false.mpr fun p hp => by simp [(hres' p hp).2.2.1]
  have hf0 : attrs.any (fun p => p.1 == "f0") = false :=
    List.any_eq_false.mpr fun p hp => by simp [(hres' p hp).2.2.2]
  have c1 : ((attrs ++ [("dt", Val.num (t.units * t.val_step))]).any
      (fun p => p.1 == "t0")) = false := by
    rw [List.any_append, ht0]; rfl
  have c2 : (((attrs ++ [("dt", Val.num (t.units * t.val_step))]) ++
      [("t0", Val.num t.time_start)]).any (fun p => p.1 == "df")) = false := by
    rw [List.any_append, List.any_append, hdf]; rfl
  have c3 : ((((attrs ++ [("dt", Val.num (t.units * t.val_step))]) ++
      [("t0", Val.num t.time_start)]) ++
      [("df", Val.num (f.units * f.val_step))]).any
      (fun p => p.1 == "f0")) = false := by
    rw [List.any_append, List.any_append, List.any_append, hf0]; rfl
  unfold buildMetadata
  rw [dictCopy_nodup attrs hnodup]
  rw [dictSet_not_mem _ _ _ hdt]
  rw [dictSet_not_mem _ _ _ c1]
  rw [dictSet_not_mem _ _ _ c2]
  rw [dictSet_not_mem _ _ _ c3]
  simp [List.append_assoc]

/-- Counterexample to C2: when `d.attrs` itself contains the key `dt`, the
derived value overwrites the copied attribute in place, so the injected
metadata does not contain the attrs entry `("dt", 7)` — it holds
`dt = units * val_step = 1e-6` instead. -/
theorem datwrapper_attrs_collision :
    datwrapper echoKwargs
      [Val.dataArr [("dt", Val.num 7)] ⟨1/1000000, 1, 100⟩ ⟨1000000, 1/2, 1000⟩
        (Val.num 0)] [] =
      .ok (Val.dict [("metadata", Val.dict
        [("dt", Val.num ((1/1000000 : ℚ) * 1)), ("t0", Val.num 100),
         ("df", Val.num ((1000000 : ℚ) * (1/2))),
         ("f0", Val.num ((1000000 : ℚ) * 1000))])]) ∧
    (1/1000000 : ℚ) * 1 = 1/1000000 ∧
    (1000000 : ℚ) * (1/2) = 500000 ∧
    (1000000 : ℚ) * 1000 = 1000000000 ∧
    Val.num ((1/1000000 : ℚ) * 1) ≠ Val.num 7 := by
  refine ⟨rfl, by norm_num, by norm_num, by norm_num, ?_⟩
  intro h
  rw [Val.num.injEq] at h
  norm_num at h

/-- C2 (amended): for a DataArray whose attrs keys are pairwise distinct
and avoid the reserved keys `dt`, `t0`, `df`, `f0`, the kernel is invoked
with the first argument replaced by `d.data` and a `metadata` keyword
holding every attrs entry followed by exactly the derived entries
`dt = time.units * time.val_step`, `t0 = time.time_start`,
`df = frequency.units * frequency.val_step` and
`f0 = frequency.units * frequency.val_start` (a caller-supplied `metadata`
keyword is replaced in place by this dict); a reserved key occurring in
attrs is instead overwritten in place by the derived value. -/
theorem datwrapper_metadata_injection (func : Kernel)
    (attrs : List (String × Val)) (time : TimeAxis) (frequency : FreqAxis)
    (data : Val) (rest : List Val) (kwargs : List (String × Val))
    (hnodup : (attrs.map Prod.fst).Nodup)
    (hres : attrs.all
      (fun p => !(p.1 == "dt" || p.1 == "t0" || p.1 == "df" || p.1 == "f0")) = true) :
    datwrapper func (Val.dataArr attrs time frequency data :: rest) kwargs =
      func (data :: rest) (dictSet kwargs "metadata" (Val.dict (attrs ++
        [("dt", Val.num (time.units * time.val_step)),
         ("t0", Val.num time.time_start),
         ("df", Val.num (frequency.units * frequency.val_step)),
         ("f0", Val.num (frequency.units * frequency.val_start))]))) := by
  show func (data :: rest)
      (dictSet kwargs "metadata" (Val.dict (buildMetadata attrs time frequency))) = _
  rw [buildMetadata_no_collision attrs time frequency hnodup hres]

/-- Witness for C2 (amended) at the spec's exact numbers:
`time = {units 1e-6, val_step 1, time_start 100}` and
`frequency = {units 1e6, val_step 1/2, val_start 1000}` produce
`dt = 1e-6`, `t0 = 100`, `df = 5e5`, `f0 = 1e9`, appended after the copied
attrs entry; a caller-supplied `metadata` keyword is replaced in place by
the injected dict. -/
theorem datwrapper_metadata_injection_witness :
    datwrapper echoKwargs
      [Val.dataArr [("source", Val.str "Voyager1")] ⟨1/1000000, 1, 100⟩
        ⟨1000000, 1/2, 1000⟩ (Val.num 0)] [("metadata", Val.num 1)] =
      .ok (Val.dict [("metadata", Val.dict
        [("source", Val.str "Voyager1"),
         ("dt", Val.num (1/1000000)), ("t0", Val.num 100),
         ("df", Val.num 500000), ("f0", Val.num 1000000000)])]) := by
  have h := datwrapper_metadata_injection echoKwargs
    [("source", Val.str "Voyager1")] ⟨1/1000000, 1, 100⟩ ⟨1000000, 1/2, 1000⟩
    (Val.num 0) [] [("metadata", Val.num 1)] (by decide) (by decide)
  rw [h]
  norm_num [echoKwargs, dictSet]

end Hyperseti
